import Mathlib

/-!
Shallow embedding of the restipy request-processing pipeline
(`src/restipy/core/application.py`) and request body parsing
(`src/restipy/core/request.py`), with theorems settling the frozen claims.

External collaborators that are not part of the repository's src tree
(Python stdlib `re`, `json`, `urllib.parse`, `email.parser`, `traceback`;
the repository's own `response.py`, `exceptions.py`, `view.py`,
`middleware.py` which are not under src/) are represented either as
explicit function parameters or as records modelled from the spec, each
marked in its doc comment.
-/

namespace Restipy

/-- Python-style values, as produced by body parsers (`json.loads`,
`dict(parse_qsl(...))`, multipart field dictionaries) and carried as
response bodies. -/
inductive PyObj where
  | none
  | bool (b : Bool)
  | int (n : Int)
  | str (s : String)
  | list (xs : List PyObj)
  | dict (kvs : List (String × PyObj))

/-- Python `str.upper()` (ASCII, as HTTP method names are). Implemented
over the character list so that it evaluates by kernel reduction. -/
def pyUpper (s : String) : String :=
  String.mk (s.data.map Char.toUpper)

/-- Python `str.lower()` (ASCII, as content-type strings are). -/
def pyLower (s : String) : String :=
  String.mk (s.data.map Char.toLower)

/-- Python `str.startswith(p)`. -/
def pyStartsWith (s p : String) : Bool :=
  p.data.isPrefixOf s.data

/-- Split a character list on a separator character, Python
`str.split(sep)` style: `';'` applied to `"a;b"` gives `["a", "b"]`, and a
leading/trailing/doubled separator contributes empty pieces. -/
def charsSplitOn (sep : Char) : List Char → List (List Char)
  | [] => [[]]
  | c :: cs =>
    let r := charsSplitOn sep cs
    if c = sep then [] :: r
    else
      match r with
      | [] => [[c]]
      | g :: gs => (c :: g) :: gs

/-- Python `str.split(sep)` for a one-character separator. -/
def pySplit (s : String) (sep : Char) : List String :=
  (charsSplitOn sep s.data).map String.mk

/-- Python `str.splitlines()` restricted to `\n` separators (the only ones
a `traceback.format_exc` string contains): one entry per line, no entry
for a trailing newline, no entries for the empty string. -/
def pySplitlines (s : String) : List String :=
  if s.data.isEmpty then []
  else if s.data.getLast? = some '\n' then (pySplit s '\n').dropLast
  else pySplit s '\n'

/-- Value of a non-empty run of decimal digits, `Option.none` on a
non-digit or an empty run. -/
def digitsValAux : List Char → Nat → Option Nat
  | [], acc => some acc
  | c :: cs, acc =>
    if c.isDigit then digitsValAux cs (acc * 10 + (c.toNat - 48))
    else Option.none

/-- Python `int(s)` on an optionally signed decimal literal; `Option.none`
models the `ValueError` on any other input. -/
def pyInt (s : String) : Option Int :=
  match s.data with
  | [] => Option.none
  | '-' :: cs =>
    match cs with
    | [] => Option.none
    | _ => (digitsValAux cs 0).map (fun n => -(n : Int))
  | '+' :: cs =>
    match cs with
    | [] => Option.none
    | _ => (digitsValAux cs 0).map (fun n => (n : Int))
  | cs => (digitsValAux cs 0).map (fun n => (n : Int))

/-- Python truthiness (`if self._form:` and similar tests): `None`, `False`,
`0`, `''`, `[]` and an empty dict are falsy, everything else is truthy. -/
def truthy : PyObj → Bool
  | PyObj.none => false
  | PyObj.bool b => b
  | PyObj.int n => decide (n ≠ 0)
  | PyObj.str s => !s.isEmpty
  | PyObj.list xs => !xs.isEmpty
  | PyObj.dict kvs => !kvs.isEmpty

/-- Python dict item assignment `d[k] = v`: overwrite in place when the key
exists, otherwise append (insertion order preserved). -/
def dictUpsert (kvs : List (String × PyObj)) (k : String) (v : PyObj) :
    List (String × PyObj) :=
  if kvs.any (fun p => p.1 == k) then
    kvs.map (fun p => if p.1 == k then (k, v) else p)
  else kvs ++ [(k, v)]

/-- Python `dict(pairs)`: later duplicates overwrite earlier ones, first
occurrence fixes the position. Used for `dict(parse_qsl(...))`. -/
def pyDictOfPairs (ps : List (String × String)) : PyObj :=
  PyObj.dict (ps.foldl (fun acc p => dictUpsert acc p.1 (PyObj.str p.2)) [])

/-- Modelled from the spec: `exceptions.py` is not under src/. Per section 7
a transport error (`HTTPException`) carries an HTTP status code, a stable
machine-readable code string, a message, and optional headers. -/
structure HTTPExc where
  message : String
  status_code : Int
  code : String
  headers : List (String × String)
deriving DecidableEq, Repr

/-- Exceptions that can unwind through the pipeline.

Modelled from the spec: `exceptions.py` is not under src/. `http` is an
`HTTPException` (transport error); `restipy` is a `RestiPyException`
(application-level error, carrying its message, the only part the pipeline
inspects); `generic` is any other Python exception (e.g. the
`AttributeError` from calling `.match` on a plain string). Per section 4.3
and section 7 the view-level `except RestiPyException` handler catches only
application-level errors, not transport errors. -/
inductive Exc where
  | http (e : HTTPExc)
  | restipy (msg : String)
  | generic (msg : String)
deriving DecidableEq, Repr

/-- Whether an exception is the transport-level `HTTPException`. -/
def Exc.isHTTP : Exc → Bool
  | Exc.http _ => true
  | _ => false

/-- Python `str(e)` for the exception kinds above: the stored message. -/
def Exc.message : Exc → String
  | Exc.http e => e.message
  | Exc.restipy m => m
  | Exc.generic m => m

/-- Modelled from the spec: `HTTPException.get_response` (in the missing
`exceptions.py`) renders the transport error's stable code and message,
mirroring the error-body shape used throughout (section 7). -/
def HTTPExc.get_response (e : HTTPExc) : PyObj :=
  PyObj.dict [("code", PyObj.str e.code), ("error", PyObj.str e.message)]

/-- Modelled from the spec: `response.py` is not under src/. Per section 3 a
Response is a body (arbitrary serializable value), an integer status and a
header mapping; the body is serialized to bytes only at emission time. -/
structure Response where
  body : PyObj
  status : Int
  headers : List (String × String)

/-- The WSGI environment fields consumed by `Request` and the dispatcher.
`max_body_size` inlines the only field the request object reaches through
the `env['restipy.app']` back-reference, namely
`self.app.config.MAX_BODY_SIZE`; `Option.none` models the setting being
absent (the `AttributeError` path of `_read_body`). `wsgi_input` is the
content of the `wsgi.input` byte stream. -/
structure Env where
  request_method : Option String
  path_info : Option String
  content_length : Option String
  content_type : Option String
  wsgi_input : List Nat
  max_body_size : Option Int

/-- The request object (`request.py`): the environment, the path-capture
parameter map `_params`, and the shared lazily-parsed body cache `_form`. -/
structure Request where
  env : Env
  params : List (String × String)
  form : PyObj

/-- Construction `Request(env)` in `process_request`: `_params` defaults to
an empty dict and `_form` starts as an empty dict. -/
def Request.make (env : Env) : Request :=
  { env := env, params := [], form := PyObj.dict [] }

/-- Property `Request.method`: `env.get('REQUEST_METHOD', 'GET').upper()`. -/
def Request.method (req : Request) : String :=
  pyUpper (req.env.request_method.getD "GET")

/-- Property `Request.path`: `env.get('PATH_INFO', '/')`. -/
def Request.path (req : Request) : String :=
  req.env.path_info.getD "/"

/-- Property `Request.content_type`: `env.get('CONTENT_TYPE', '')`. -/
def Request.content_type (req : Request) : String :=
  req.env.content_type.getD ""

/-- Property `Request.content_length`:
`int(env.get('CONTENT_LENGTH', '0'))`, raising `ValueError` (a generic
exception) when the string is not an integer literal. -/
def Request.content_length (req : Request) : Except Exc Int :=
  match pyInt (req.env.content_length.getD "0") with
  | some n => Except.ok n
  | Option.none => Except.error (Exc.generic "ValueError: invalid literal for int")

/-- The read loop of `Request._read_body`:
`while readbytes < toread: chunk = input.read(64 * 1024); if not chunk:
break; readbytes += len(chunk); yield chunk`, with the yielded chunks
concatenated (as every caller does). The `fuel` argument only bounds the
iteration count for structural recursion; each iteration consumes at least
one byte of `input`, so `input.length + 1` fuel is never exhausted. -/
def readChunks : Nat → List Nat → Int → Int → List Nat
  | 0, _, _, _ => []
  | fuel + 1, input, toread, readbytes =>
    if readbytes < toread then
      let chunk := input.take (64 * 1024)
      if chunk.isEmpty then []
      else chunk ++ readChunks fuel (input.drop (64 * 1024)) toread
            (readbytes + chunk.length)
    else []

/-- `Request._read_body`. It is a generator: for a method outside
POST/PUT/PATCH it returns immediately, so callers see an empty body. It
computes `content_length` first, then reaches for
`self.app.config.MAX_BODY_SIZE` (an `AttributeError` becomes the 500
`MISSING_MAX_BODY_SIZE` transport error), raises the 413
`REQUEST_BODY_TOO_LARGE` transport error before touching the input stream
when the declared length exceeds the bound, and otherwise runs the read
loop with `toread = max(content_length, max_body_size)`. -/
def Request.read_body (req : Request) : Except Exc (List Nat) :=
  if req.method ∈ (["POST", "PUT", "PATCH"] : List String) then
    match req.content_length with
    | Except.error e => Except.error e
    | Except.ok cl =>
      match req.env.max_body_size with
      | Option.none =>
        Except.error (Exc.http
          { message := "Missing MAX_BODY_SIZE in settings.", status_code := 500,
            code := "MISSING_MAX_BODY_SIZE", headers := [] })
      | some mbs =>
        if cl > mbs then
          Except.error (Exc.http
            { message := "Request body too large.", status_code := 413,
              code := "REQUEST_BODY_TOO_LARGE", headers := [] })
        else
          Except.ok (readChunks (req.env.wsgi_input.length + 1)
            req.env.wsgi_input (max cl mbs) 0)
  else Except.ok []

/-- The expression `json.loads(body.decode())`: decode the body bytes,
then parse; a failure of either stdlib step is a single failure of the
whole expression (both sit inside the same try). -/
def decodeThen (jsonLoads : String → Except Unit PyObj)
    (decode : List Nat → Except Unit String) (body : List Nat) :
    Except Unit PyObj :=
  match decode body with
  | Except.error e => Except.error e
  | Except.ok s => jsonLoads s

/-- `Request._parse_json_data`. Returns the shared `_form` cache whenever
it is truthy, before looking at the Content-Type. Otherwise, for a JSON
content type and non-empty body, runs `json.loads(body.decode())`
(modelled by the `decode` and `jsonLoads` parameters for the stdlib
decoders) inside a try that converts any failure into the 400
`INVALID_REQUEST_BODY` transport error, caching and returning the parsed
value on success. -/
def Request.parse_json_data (jsonLoads : String → Except Unit PyObj)
    (decode : List Nat → Except Unit String) (req : Request) :
    Except Exc (Option PyObj × Request) :=
  if truthy req.form then Except.ok (some req.form, req)
  else
    let ctype := (pySplit (pyLower req.content_type) ';').headD ""
    if ctype ∈ (["application/json", "application/json-rpc"] : List String) then
      match req.read_body with
      | Except.error e => Except.error e
      | Except.ok body =>
        if body.isEmpty then Except.ok (Option.none, req)
        else
          match decodeThen jsonLoads decode body with
          | Except.error _ =>
            Except.error (Exc.http
              { message := "Malformed JSON body.", status_code := 400,
                code := "INVALID_REQUEST_BODY", headers := [] })
          | Except.ok v => Except.ok (some v, { req with form := v })
    else Except.ok (Option.none, req)

/-- `Request._parse_url_encoded_form`. Returns the shared `_form` cache
whenever it is truthy. Otherwise reads the body and runs
`dict(parse_qsl(body.decode()))` (stdlib decoders as parameters) inside a
try that converts failures into the 400 `INVALID_REQUEST_BODY` transport
error; the result is cached, and returned only when truthy (the final
`if self._form: return self._form` falls through to `None` otherwise). -/
def Request.parse_url_encoded_form (parseQsl : String → List (String × String))
    (decode : List Nat → Except Unit String) (req : Request) :
    Except Exc (Option PyObj × Request) :=
  if truthy req.form then Except.ok (some req.form, req)
  else
    match req.read_body with
    | Except.error e => Except.error e
    | Except.ok body =>
      match decode body with
      | Except.error _ =>
        Except.error (Exc.http
          { message := "Invalid request body.", status_code := 400,
            code := "INVALID_REQUEST_BODY", headers := [] })
      | Except.ok s =>
        let form := pyDictOfPairs (parseQsl s)
        let req' := { req with form := form }
        if truthy form then Except.ok (some form, req')
        else Except.ok (Option.none, req')

/-- One non-file part of a parsed multipart message: its optional filename,
the `name` parameter of its content-disposition header, and its decoded
payload. Models the parts produced by the stdlib `email` parser. -/
structure Part where
  filename : Option String
  name : String
  payload : String

/-- `Request._parse_multipart_form`. Returns the shared `_form` cache
whenever it is truthy. Otherwise parses the body as a multipart message
(the stdlib `email.parser.BytesFeedParser`, fed the content type and the
body, is the `getMsg` parameter; `Option.none` models a non-multipart
message, for which the method returns `None`), then assigns each
non-file part into the existing `_form` dict by item assignment, and
returns the dict only when truthy. -/
def Request.parse_multipart_form
    (getMsg : String → List Nat → Option (List Part)) (req : Request) :
    Except Exc (Option PyObj × Request) :=
  if truthy req.form then Except.ok (some req.form, req)
  else
    match req.read_body with
    | Except.error e => Except.error e
    | Except.ok body =>
      match getMsg req.content_type body with
      | Option.none => Except.ok (Option.none, req)
      | some parts =>
        match req.form with
        | PyObj.dict kvs =>
          let kvs' := parts.foldl
            (fun acc p =>
              if p.filename.isSome then acc
              else dictUpsert acc p.name (PyObj.str p.payload)) kvs
          let form := PyObj.dict kvs'
          let req' := { req with form := form }
          if truthy form then Except.ok (some form, req')
          else Except.ok (Option.none, req')
        | _ => Except.error (Exc.generic "TypeError: item assignment on non-dict")

/-- Property `Request.json`: delegates to `_parse_json_data`. -/
def Request.json (jsonLoads : String → Except Unit PyObj)
    (decode : List Nat → Except Unit String) (req : Request) :
    Except Exc (Option PyObj × Request) :=
  req.parse_json_data jsonLoads decode

/-- Property `Request.form`: multipart parsing when the content type starts
with `multipart/`, url-encoded parsing otherwise. -/
def Request.formProp (getMsg : String → List Nat → Option (List Part))
    (parseQsl : String → List (String × String))
    (decode : List Nat → Except Unit String) (req : Request) :
    Except Exc (Option PyObj × Request) :=
  if pyStartsWith req.content_type "multipart/" then
    req.parse_multipart_form getMsg
  else
    req.parse_url_encoded_form parseQsl decode

/-- A route pattern as stored in `View.route`: either a still-uncompiled
string, or a compiled regex, represented by its matching function
`path ↦ groupdict` (`Option.none` when `pattern.match(path)` returns no
match; `some groups` is the always-truthy match object together with its
named capture groups `match.groupdict()`). -/
inductive RoutePattern where
  | str (s : String)
  | compiled (f : String → Option (List (String × String)))

/-- Whether the pattern is still a plain string (`isinstance(view.route, str)`). -/
def RoutePattern.isStr : RoutePattern → Bool
  | RoutePattern.str _ => true
  | RoutePattern.compiled _ => false

/-- `view.route.match(path)`: a compiled pattern applies its matcher; a
plain string has no `.match` attribute, so the call raises
`AttributeError` (a generic exception). -/
def RoutePattern.matchPath : RoutePattern → String →
    Except Exc (Option (List (String × String)))
  | RoutePattern.str _, _ =>
    Except.error (Exc.generic "AttributeError: str object has no attribute match")
  | RoutePattern.compiled f, p => Except.ok (f p)

/-- `re.compile`, parameterised by the stdlib regex compiler `compileStr`
(which maps a pattern string to its matching function). Applied to an
already-compiled pattern, `re.compile` returns that same pattern. -/
def reCompile (compileStr : String → String → Option (List (String × String))) :
    RoutePattern → RoutePattern
  | RoutePattern.str s => RoutePattern.compiled (compileStr s)
  | RoutePattern.compiled f => RoutePattern.compiled f

/-- Result of a middleware or view hook call: a `Response` object, or any
other value (`None`, a dict, ...) — `process_request` only ever tests
`isinstance(out, Response)`. -/
inductive HookOut where
  | resp (r : Response)
  | val

/-- A view, as consumed by `_add_view` and `process_request`.

Modelled from the spec: `view.py` is not under src/; the hook signatures
are those of the call sites in `application.py` and section 4.3: `route`
(pattern), `methods`, `before_handler(req)`, `handler(req)`,
`after_handler(req, response)` (return value ignored) and
`on_exception(req, error)` (receiving the application-level error, of
which only the message is observable). Any hook may raise. -/
structure View where
  route : RoutePattern
  methods : List String
  before_handler : Request → Except Exc HookOut
  handler : Request → Except Exc HookOut
  after_handler : Request → Response → Except Exc HookOut
  on_exception : Request → String → Except Exc HookOut

/-- The application state used while serving requests: the route table
`_routes` (a dict from HTTP method to route list, in insertion order), the
three parallel middleware phase lists, and `config.DEBUG`. -/
structure App where
  routes : List (String × List View)
  before_route_m : List (Request → Except Exc HookOut)
  before_m : List (Request → Except Exc HookOut)
  after_m : List (Request → Response → Except Exc HookOut)
  debug : Bool

/-- Append an entry to the route dict as `_add_view` does:
`if method not in self._routes: self._routes[method] = []` then
`self._routes[method].append(view)`. -/
def appendRoute (rts : List (String × List View)) (m : String) (v : View) :
    List (String × List View) :=
  if rts.any (fun p => p.1 == m) then
    rts.map (fun p => if p.1 == m then (p.1, p.2 ++ [v]) else p)
  else rts ++ [(m, v :: [])]

/-- `RestiPy._add_view`: `if not isinstance(view.route, str): view.route =
re.compile(view.route)` — note the code compiles only when the route is
NOT a string — then appends the view to the list of every method it
declares, method names uppercased. -/
def addView (compileStr : String → String → Option (List (String × String)))
    (app : App) (v : View) : App :=
  let v := if !v.route.isStr then { v with route := reCompile compileStr v.route } else v
  { app with
    routes := v.methods.foldl (fun rts m => appendRoute rts (pyUpper m) v) app.routes }

/-- Route-dict lookup `self._routes.get(method) or []`. -/
def lookupRoutes (rts : List (String × List View)) (m : String) : List View :=
  match rts.find? (fun p => p.1 == m) with
  | some p => p.2
  | Option.none => []

/-- The inner loop of `RestiPy.match` over one method's route list: return
the first view whose pattern matches the path, together with its
groupdict; raise when a pattern is still a string. -/
def firstMatch : List View → String →
    Except Exc (Option (View × List (String × String)))
  | [], _ => Except.ok Option.none
  | v :: rest, path =>
    match v.route.matchPath path with
    | Except.error e => Except.error e
    | Except.ok (some g) => Except.ok (some (v, g))
    | Except.ok Option.none => firstMatch rest path

/-- The candidate method order of `RestiPy.match`: the requested method,
followed by GET when the method is HEAD. -/
def searchMethodsFor (method : String) : List String :=
  if method == "HEAD" then ["HEAD", "GET"] else [method]

/-- The outer loop of `RestiPy.match` over the candidate methods. -/
def matchMethods (app : App) (path : String) : List String →
    Except Exc (Option (View × List (String × String)))
  | [] => Except.ok Option.none
  | m :: ms =>
    match firstMatch (lookupRoutes app.routes m) path with
    | Except.error e => Except.error e
    | Except.ok (some vg) => Except.ok (some vg)
    | Except.ok Option.none => matchMethods app path ms

/-- `RestiPy.match(path, method)`: first match over the candidate methods,
raising the 404 `ROUTE_NOT_FOUND` transport error when nothing matches. -/
def matchRoute (app : App) (path method : String) :
    Except Exc (View × List (String × String)) :=
  match matchMethods app path (searchMethodsFor method) with
  | Except.error e => Except.error e
  | Except.ok (some vg) => Except.ok vg
  | Except.ok Option.none =>
    Except.error (Exc.http
      { message := "Route not found.", status_code := 404,
        code := "ROUTE_NOT_FOUND", headers := [] })

/-- Observable pipeline steps, recorded in registration order as
`process_request` runs: invocation of the i-th before-route middleware,
the route-table lookup, the i-th before-handler middleware, each view
lifecycle hook, and the i-th after-handler middleware. -/
inductive Event where
  | beforeRouteM (i : Nat)
  | routeMatch
  | beforeHandlerM (i : Nat)
  | viewBefore
  | viewHandler
  | viewAfter
  | viewOnException
  | afterHandlerM (i : Nat)
deriving DecidableEq, Repr

/-- Whether an event is a view lifecycle hook invocation. -/
def Event.isViewHook : Event → Bool
  | Event.viewBefore => true
  | Event.viewHandler => true
  | Event.viewAfter => true
  | Event.viewOnException => true
  | _ => false

/-- Outcome of one before-phase middleware loop. -/
inductive PhaseRes where
  | passed
  | short (r : Response)
  | raised (e : Exc)

/-- One of the two before-phase middleware loops of `process_request`:
run the hooks in registration order; the first hook returning a `Response`
short-circuits (`return out`), a raise unwinds, otherwise the loop passes.
`mk` tags the phase's events and `i` is the index of the first hook. -/
def runPhase (hooks : List (Request → Except Exc HookOut)) (req : Request)
    (mk : Nat → Event) (i : Nat) : List Event × PhaseRes :=
  match hooks with
  | [] => ([], PhaseRes.passed)
  | h :: rest =>
    match h req with
    | Except.error e => ([mk i], PhaseRes.raised e)
    | Except.ok (HookOut.resp r) => ([mk i], PhaseRes.short r)
    | Except.ok HookOut.val =>
      let t := runPhase rest req mk (i + 1)
      (mk i :: t.1, t.2)

/-- The after-handler middleware loop of `process_request`:
`for middleware in self._after_m: middleware(req, out)` — return values
are discarded, a raise unwinds. -/
def runAfterPhase (hooks : List (Request → Response → Except Exc HookOut))
    (req : Request) (r : Response) (i : Nat) : List Event × Option Exc :=
  match hooks with
  | [] => ([], Option.none)
  | h :: rest =>
    match h req r with
    | Except.error e => ([Event.afterHandlerM i], some e)
    | Except.ok _ =>
      let t := runAfterPhase rest req r (i + 1)
      (Event.afterHandlerM i :: t.1, t.2)

/-- How the view stage of `process_request` ends: `retNow` is a direct
`return` from inside the stage (before-hook short-circuit or `on_exception`
recovery), which skips the after-handler middleware loop; `cont` is the
normal fall-through to that loop; `raised` unwinds to the outer boundary. -/
inductive ViewOutcome where
  | retNow (r : Response)
  | cont (r : Response)
  | raised (e : Exc)

/-- The `except RestiPyException` clause of the view stage:
`out = view.on_exception(req, e)`; a non-Response result raises the second
contract-violation `RestiPyException` (chained to the original), a
Response result is returned directly. -/
def handleRestiPy (v : View) (req : Request) (msg : String) :
    List Event × ViewOutcome :=
  match v.on_exception req msg with
  | Except.error e' => ([Event.viewOnException], ViewOutcome.raised e')
  | Except.ok (HookOut.resp r) => ([Event.viewOnException], ViewOutcome.retNow r)
  | Except.ok HookOut.val =>
    ([Event.viewOnException],
      ViewOutcome.raised (Exc.restipy "Route exception must return Response object."))

/-- The view stage of `process_request` (the inner try):
`out = view.before_handler(req)` (a Response short-circuits), then
`out = view.handler(req)` (a non-Response raises the contract-violation
`RestiPyException`, caught by this very try's `except RestiPyException`),
then `view.after_handler(req, out)`. Any `RestiPyException` raised inside
the try is routed to `handleRestiPy`; other exceptions unwind. -/
def runViewStage (v : View) (req : Request) : List Event × ViewOutcome :=
  match v.before_handler req with
  | Except.error (Exc.restipy m) =>
    let t := handleRestiPy v req m
    (Event.viewBefore :: t.1, t.2)
  | Except.error e => ([Event.viewBefore], ViewOutcome.raised e)
  | Except.ok (HookOut.resp r) => ([Event.viewBefore], ViewOutcome.retNow r)
  | Except.ok HookOut.val =>
    match v.handler req with
    | Except.error (Exc.restipy m) =>
      let t := handleRestiPy v req m
      (Event.viewBefore :: Event.viewHandler :: t.1, t.2)
    | Except.error e =>
      ([Event.viewBefore, Event.viewHandler], ViewOutcome.raised e)
    | Except.ok (HookOut.resp r) =>
      match v.after_handler req r with
      | Except.error (Exc.restipy m) =>
        let t := handleRestiPy v req m
        (Event.viewBefore :: Event.viewHandler :: Event.viewAfter :: t.1, t.2)
      | Except.error e =>
        ([Event.viewBefore, Event.viewHandler, Event.viewAfter],
          ViewOutcome.raised e)
      | Except.ok _ =>
        ([Event.viewBefore, Event.viewHandler, Event.viewAfter],
          ViewOutcome.cont r)
    | Except.ok HookOut.val =>
      let t := handleRestiPy v req "Route handler must return a Response object."
      (Event.viewBefore :: Event.viewHandler :: t.1, t.2)

/-- Tail of the dispatcher after before-handler middleware has passed: run
the view stage; a direct return skips the after-handler loop, the normal
path runs every after-handler middleware and then returns the response. -/
def dispatchView (app : App) (req2 : Request) (t0 : List Event) (v : View) :
    List Event × Except Exc Response :=
  match runViewStage v req2 with
  | (t3, ViewOutcome.raised e) => (t0 ++ t3, Except.error e)
  | (t3, ViewOutcome.retNow r) => (t0 ++ t3, Except.ok r)
  | (t3, ViewOutcome.cont r) =>
    match runAfterPhase app.after_m req2 r 0 with
    | (t4, some e) => (t0 ++ t3 ++ t4, Except.error e)
    | (t4, Option.none) => (t0 ++ t3 ++ t4, Except.ok r)

/-- Tail of the dispatcher after before-route middleware has passed:
`view, params = self.match(req.path, req.method)`,
`req.set_params = params`, then the before-handler middleware loop
(short-circuit returns immediately), then the view stage. -/
def dispatchFromRoute (app : App) (req : Request) (t1 : List Event) :
    List Event × Except Exc Response :=
  match matchRoute app req.path req.method with
  | Except.error e => (t1 ++ [Event.routeMatch], Except.error e)
  | Except.ok (v, params) =>
    let req2 := { req with params := params }
    match runPhase app.before_m req2 Event.beforeHandlerM 0 with
    | (t2, PhaseRes.raised e) =>
      (t1 ++ [Event.routeMatch] ++ t2, Except.error e)
    | (t2, PhaseRes.short r) =>
      (t1 ++ [Event.routeMatch] ++ t2, Except.ok r)
    | (t2, PhaseRes.passed) =>
      dispatchView app req2 (t1 ++ [Event.routeMatch] ++ t2) v

/-- The body of `process_request`'s outer try: wrap the environment in a
Request (the `env['restipy.app'] = self` back-reference is inlined as
`Env.max_body_size`, its only consumed field), run the before-route
middleware loop (short-circuit returns immediately), then dispatch from
routing onwards. Produces the event trace and either a response or the
exception unwinding to the outer boundary. -/
def dispatch (app : App) (env : Env) : List Event × Except Exc Response :=
  let req := Request.make env
  match runPhase app.before_route_m req Event.beforeRouteM 0 with
  | (t1, PhaseRes.raised e) => (t1, Except.error e)
  | (t1, PhaseRes.short r) => (t1, Except.ok r)
  | (t1, PhaseRes.passed) => dispatchFromRoute app req t1

/-- `RestiPy.process_request`: the outer error boundary around `dispatch`.
An `HTTPException` is converted into a response from its own payload,
status and headers. Any other exception is logged (the write to
`wsgi.errors` is a side effect outside the model; `fmtExc` stands for the
stdlib `traceback.format_exc`) and converted to a 500 response: the
generic non-leaking body when `config.DEBUG is False`, otherwise a body
carrying `str(e)` and `stacktrace.splitlines()`. -/
def process_request (fmtExc : Exc → String) (app : App) (env : Env) :
    List Event × Response :=
  match dispatch app env with
  | (tr, Except.ok r) => (tr, r)
  | (tr, Except.error (Exc.http e)) =>
    (tr, { body := e.get_response, status := e.status_code, headers := e.headers })
  | (tr, Except.error e) =>
    if app.debug = false then
      (tr,
        { body := PyObj.dict
            [("code", PyObj.str "INTERNAL_SERVER_ERROR"),
             ("error", PyObj.str "Something went wrong, try again later.")],
          status := 500, headers := [] })
    else
      (tr,
        { body := PyObj.dict
            [("code", PyObj.str "INTERNAL_SERVER_ERROR"),
             ("error", PyObj.str e.message),
             ("stacktrace", PyObj.list ((pySplitlines (fmtExc e)).map PyObj.str))],
          status := 500, headers := [] })

/-- Modelled from the spec: `Response.get_response` (in the missing
`response.py`) serializes the body to bytes at emission time (`serialize`)
and renders the status line from the fixed status table (`statusLine`),
returning the data, status line and header list (sections 3 and 6). -/
def Response.get_response (serialize : PyObj → List Nat)
    (statusLine : Int → String) (r : Response) :
    List Nat × String × List (String × String) :=
  (serialize r.body, statusLine r.status, r.headers)

/-- `RestiPy.wsgi` (and `__call__`): process the request, emit status line
and headers through `start_response`, and return the body byte chunks —
none at all for a HEAD request, the serialized body otherwise. The
returned triple is (chunks yielded, status line, headers). -/
def wsgi (fmtExc : Exc → String) (serialize : PyObj → List Nat)
    (statusLine : Int → String) (app : App) (env : Env) :
    List (List Nat) × String × List (String × String) :=
  let method := pyUpper (env.request_method.getD "GET")
  let out := (process_request fmtExc app env).2
  let res := out.get_response serialize statusLine
  if method == "HEAD" then ([], res.2.1, res.2.2)
  else ([res.1], res.2.1, res.2.2)

/-- The captured groups of a successful route lookup, `Option.none` on a
failed or crashing lookup. -/
def matchedGroups (app : App) (path method : String) :
    Option (List (String × String)) :=
  match matchRoute app path method with
  | Except.ok (_, g) => some g
  | Except.error _ => Option.none

/-- A before-phase middleware loop in which every hook returns a
non-Response value runs all hooks in registration order and passes. -/
theorem runPhase_all (hooks : List (Request → Except Exc HookOut))
    (req : Request) (mk : Nat → Event)
    (h : ∀ f ∈ hooks, f req = Except.ok HookOut.val) :
    ∀ i, runPhase hooks req mk i =
      ((List.range' i hooks.length).map mk, PhaseRes.passed) := by
  induction hooks with
  | nil => intro i; simp [runPhase]
  | cons f rest ih =>
    intro i
    have hf : f req = Except.ok HookOut.val := h f (List.mem_cons_self _ _)
    have hrest : ∀ g ∈ rest, g req = Except.ok HookOut.val :=
      fun g hg => h g (List.mem_cons_of_mem _ hg)
    simp [runPhase, hf, ih hrest, List.range'_succ]

/-- A before-phase middleware loop whose prefix passes and whose next hook
returns a Response stops right there, short-circuiting with that
response: the hooks after it never run. -/
theorem runPhase_short (pre : List (Request → Except Exc HookOut))
    (m : Request → Except Exc HookOut)
    (post : List (Request → Except Exc HookOut)) (req : Request)
    (mk : Nat → Event) (r : Response)
    (hpre : ∀ f ∈ pre, f req = Except.ok HookOut.val)
    (hm : m req = Except.ok (HookOut.resp r)) :
    ∀ i, runPhase (pre ++ m :: post) req mk i =
      ((List.range' i (pre.length + 1)).map mk, PhaseRes.short r) := by
  induction pre with
  | nil => intro i; simp [runPhase, hm, List.range'_succ]
  | cons f rest ih =>
    intro i
    have hf : f req = Except.ok HookOut.val := hpre f (List.mem_cons_self _ _)
    have hrest : ∀ g ∈ rest, g req = Except.ok HookOut.val :=
      fun g hg => hpre g (List.mem_cons_of_mem _ hg)
    simp [runPhase, hf, ih hrest, List.range'_succ]

/-- When no candidate method list yields a match, the candidate-method loop
of `RestiPy.match` finds nothing. -/
theorem matchMethods_none (app : App) (path : String) :
    ∀ ms : List String,
      (∀ m ∈ ms, firstMatch (lookupRoutes app.routes m) path =
        Except.ok Option.none) →
      matchMethods app path ms = Except.ok Option.none := by
  intro ms
  induction ms with
  | nil => intro _; rfl
  | cons m rest ih =>
    intro h
    have hm := h m (List.mem_cons_self _ _)
    have hrest := fun x hx => h x (List.mem_cons_of_mem _ hx)
    simp [matchMethods, hm, ih hrest]

/-- A stub regex compiler, usable wherever the compiler is never actually
consulted. -/
def noCompile : String → String → Option (List (String × String)) :=
  fun _ _ => Option.none

/-- The empty application: no routes, no middleware, non-debug. -/
def app0 : App :=
  { routes := [], before_route_m := [], before_m := [], after_m := [],
    debug := false }

/-- A view registered with a still-uncompiled string route pattern. -/
def vStr : View :=
  { route := RoutePattern.str "/hello", methods := ["GET"],
    before_handler := fun _ => Except.ok HookOut.val,
    handler := fun _ => Except.ok HookOut.val,
    after_handler := fun _ _ => Except.ok HookOut.val,
    on_exception := fun _ _ => Except.ok HookOut.val }

/-- C3. The claim says a view registered with a string route pattern has
that pattern compiled into a matcher in place, so every stored route
carries a compiled matcher. The code's guard is inverted
(`if not isinstance(view.route, str)`), so a string pattern is stored
uncompiled, and a request for its path then crashes in `match` with an
`AttributeError` (strings have no `.match`), contradicting `_add_view`'s
own docstring ("This method compiles the route pattern in the view"):
registering the view `vStr` with string pattern `/hello` under GET leaves
the stored pattern a string, no compiled matcher exists in the table, and
looking up GET `/hello` raises the `AttributeError`. -/
theorem c3_string_route_left_uncompiled :
    (addView noCompile app0 vStr).routes = [("GET", [vStr])] ∧
    RoutePattern.isStr vStr.route = true ∧
    matchRoute (addView noCompile app0 vStr) "/hello" "GET" =
      Except.error
        (Exc.generic "AttributeError: str object has no attribute match") := by
  refine ⟨rfl, rfl, rfl⟩

/-- C7. For a body-bearing request whose declared Content-Length exceeds
the configured MAX_BODY_SIZE, `_read_body` raises the 413
`REQUEST_BODY_TOO_LARGE` transport error, and it does so for every
possible content of the input stream — the stream is never read, so no
body bytes are buffered and total bytes read (zero) never exceed the
configured bound. -/
theorem c7_body_too_large (req : Request) (cl mbs : Int)
    (h1 : req.method ∈ (["POST", "PUT", "PATCH"] : List String))
    (h2 : req.content_length = Except.ok cl)
    (h3 : req.env.max_body_size = some mbs)
    (h4 : mbs < cl) :
    req.read_body =
      Except.error (Exc.http
        { message := "Request body too large.", status_code := 413,
          code := "REQUEST_BODY_TOO_LARGE", headers := [] }) := by
  unfold Request.read_body
  rw [if_pos h1, h2, h3]
  simp [h4]

/-- An environment declaring a 100-byte POST body against a 10-byte limit,
with bytes available on the input stream. -/
def envTooLarge : Env :=
  { request_method := some "POST", path_info := some "/",
    content_length := some "100", content_type := some "",
    wsgi_input := [1, 2, 3], max_body_size := some 10 }

/-- Concrete instance of `c7_body_too_large`: the 413 is raised and the
available stream bytes are not consumed. -/
theorem c7_witness :
    Request.read_body (Request.make envTooLarge) =
      Except.error (Exc.http
        { message := "Request body too large.", status_code := 413,
          code := "REQUEST_BODY_TOO_LARGE", headers := [] }) :=
  c7_body_too_large (Request.make envTooLarge) 100 10 (by decide)
    rfl rfl (by decide)

/-- A hook that returns a non-Response value (Python `None`). -/
def okHook : Request → Except Exc HookOut := fun _ => Except.ok HookOut.val

/-- An after-style hook that returns a non-Response value. -/
def okHook2 : Request → Response → Except Exc HookOut :=
  fun _ _ => Except.ok HookOut.val

/-- A view with the given compiled matcher and inert lifecycle hooks. -/
def mkView (f : String → Option (List (String × String))) : View :=
  { route := RoutePattern.compiled f, methods := ["GET"],
    before_handler := okHook, handler := okHook,
    after_handler := okHook2, on_exception := fun _ _ => Except.ok HookOut.val }

/-- If every view of a list prefix fails to match and the next view
matches, the first-match scan resolves to that next view with its groups,
regardless of everything registered after it. -/
theorem firstMatch_split (path : String) (R1 : View) (l2 : List View)
    (g : List (String × String))
    (hR1 : R1.route.matchPath path = Except.ok (some g)) :
    ∀ l1 : List View,
      (∀ u ∈ l1, u.route.matchPath path = Except.ok Option.none) →
      firstMatch (l1 ++ R1 :: l2) path = Except.ok (some (R1, g)) := by
  intro l1
  induction l1 with
  | nil => intro _; simp [firstMatch, hR1]
  | cons u rest ih =>
    intro h
    have hu := h u (List.mem_cons_self _ _)
    have hrest := fun x hx => h x (List.mem_cons_of_mem _ hx)
    simp [firstMatch, hu, ih hrest]

/-- A view whose pattern matches every path with an empty groupdict (a
catch-all registered first). -/
def vCatchAll : View := mkView (fun _ => some [])

/-- A view whose pattern matches exactly `/users/42`, capturing `id`. -/
def vUsers : View :=
  mkView (fun p => if p == "/users/42" then some [("id", "42")] else Option.none)

/-- A view whose pattern matches every path, capturing it whole. -/
def vAny : View := mkView (fun p => some [("path", p)])

/-- An application whose GET list holds, in registration order, the
catch-all view, the `/users/42` view, and the capture-anything view. -/
def app5 : App :=
  { routes := [("GET", [vCatchAll, vUsers, vAny])],
    before_route_m := [], before_m := [], after_m := [], debug := false }

/-- C5, counterexample. Take R1 := `vUsers` (registered second) and
R2 := `vAny` (registered third) in the same GET list; the path
`/users/42` matches both of their patterns, yet route lookup resolves with
the empty groupdict of the catch-all registered before R1 — not with R1
and R1's groups, as the claim states for every such pair. -/
theorem c5_counterexample :
    matchedGroups app5 "/users/42" "GET" = some [] ∧
    vUsers.route.matchPath "/users/42" = Except.ok (some [("id", "42")]) ∧
    vAny.route.matchPath "/users/42" =
      Except.ok (some [("path", "/users/42")]) ∧
    (some ([] : List (String × String)) ≠ some [("id", "42")]) :=
  ⟨rfl, rfl, rfl, by decide⟩

/-- C5, amended. Route lookup is first-match in registration order: it
resolves to the earliest registered route of the candidate method list
whose pattern matches the path, with that route's named capture groups —
in particular never to a later-registered matching route R2, and to R1
exactly when no route registered before R1 also matches. -/
theorem c5_first_match_amended (app : App) (M path : String)
    (l1 l2 : List View) (R1 : View) (g : List (String × String))
    (hl : lookupRoutes app.routes M = l1 ++ R1 :: l2)
    (hpre : ∀ u ∈ l1, u.route.matchPath path = Except.ok Option.none)
    (hR1 : R1.route.matchPath path = Except.ok (some g))
    (hM : searchMethodsFor M = [M]) :
    matchRoute app path M = Except.ok (R1, g) := by
  unfold matchRoute
  rw [hM]
  simp [matchMethods, hl, firstMatch_split path R1 l2 g hR1 l1 hpre]

/-- A view whose pattern matches only `/x`. -/
def vOnlyX : View :=
  mkView (fun p => if p == "/x" then some [] else Option.none)

/-- An application with a GET list in which the first route does not match
`/users/42` and the second does. -/
def appW5 : App :=
  { routes := [("GET", [vOnlyX, vUsers])],
    before_route_m := [], before_m := [], after_m := [], debug := false }

/-- Concrete instance of `c5_first_match_amended`: with the non-matching
route first, lookup resolves to `vUsers` and its captured `id`. -/
theorem c5_witness :
    matchRoute appW5 "/users/42" "GET" = Except.ok (vUsers, [("id", "42")]) :=
  c5_first_match_amended appW5 "GET" "/users/42" [vOnlyX] [] vUsers
    [("id", "42")] rfl
    (by
      intro u hu
      have h := List.mem_singleton.mp hu
      subst h
      rfl)
    rfl rfl

/-- C6. When every candidate method list is exhausted without a match
(`firstMatch` finds nothing for any candidate method) and the before-route
middleware has passed, `RestiPy.match` raises the transport-level
`HTTPException` with status 404 and stable code `ROUTE_NOT_FOUND`, and
`process_request`'s outer boundary converts it directly into a 404
response (body from the error's own payload) — the trace shows only the
before-route middleware and the route lookup, and no view lifecycle hook
is ever invoked. -/
theorem c6_route_not_found (fmt : Exc → String) (app : App) (env : Env)
    (h1 : ∀ f ∈ app.before_route_m,
      f (Request.make env) = Except.ok HookOut.val)
    (h2 : ∀ m ∈ searchMethodsFor (Request.make env).method,
      firstMatch (lookupRoutes app.routes m) (Request.make env).path =
        Except.ok Option.none) :
    matchRoute app (Request.make env).path (Request.make env).method =
      Except.error (Exc.http
        { message := "Route not found.", status_code := 404,
          code := "ROUTE_NOT_FOUND", headers := [] }) ∧
    process_request fmt app env =
      ((List.range' 0 app.before_route_m.length).map Event.beforeRouteM ++
          [Event.routeMatch],
        { body := PyObj.dict
            [("code", PyObj.str "ROUTE_NOT_FOUND"),
             ("error", PyObj.str "Route not found.")],
          status := 404, headers := [] }) ∧
    ∀ ev ∈ (process_request fmt app env).1, ev.isViewHook = false := by
  have hmatch : matchRoute app (Request.make env).path (Request.make env).method =
      Except.error (Exc.http
        { message := "Route not found.", status_code := 404,
          code := "ROUTE_NOT_FOUND", headers := [] }) := by
    unfold matchRoute
    rw [matchMethods_none app (Request.make env).path _ h2]
  have hbr := runPhase_all app.before_route_m (Request.make env)
    Event.beforeRouteM h1 0
  have hdisp : dispatch app env =
      ((List.range' 0 app.before_route_m.length).map Event.beforeRouteM ++
          [Event.routeMatch],
        Except.error (Exc.http
          { message := "Route not found.", status_code := 404,
            code := "ROUTE_NOT_FOUND", headers := [] })) := by
    simp only [dispatch, dispatchFromRoute, hbr, hmatch]
  have hpr : process_request fmt app env =
      ((List.range' 0 app.before_route_m.length).map Event.beforeRouteM ++
          [Event.routeMatch],
        { body := PyObj.dict
            [("code", PyObj.str "ROUTE_NOT_FOUND"),
             ("error", PyObj.str "Route not found.")],
          status := 404, headers := [] }) := by
    simp only [process_request, hdisp, HTTPExc.get_response]
  refine ⟨hmatch, hpr, ?_⟩
  intro ev hv
  rw [hpr] at hv
  rcases List.mem_append.mp hv with h | h
  · rcases List.mem_map.mp h with ⟨j, _, hj⟩
    rw [← hj]
    rfl
  · rw [List.mem_singleton.mp h]
    rfl

/-- A formatter standing in for `traceback.format_exc` where its output is
irrelevant. -/
def fmt0 : Exc → String := fun _ => ""

/-- A plain GET request environment for the root path. -/
def env1 : Env :=
  { request_method := some "GET", path_info := some "/",
    content_length := some "0", content_type := some "",
    wsgi_input := [], max_body_size := Option.none }

/-- A response produced by a short-circuiting middleware. -/
def rSC : Response :=
  { body := PyObj.str "short-circuited", status := 200, headers := [] }

/-- A before-phase middleware returning the short-circuit response. -/
def mwShort : Request → Except Exc HookOut :=
  fun _ => Except.ok (HookOut.resp rSC)

/-- An application with one before-route middleware that short-circuits and
one registered after-handler middleware. -/
def app1 : App :=
  { routes := [], before_route_m := [mwShort], before_m := [],
    after_m := [okHook2], debug := false }

/-- An application with one route, one before-handler middleware that
short-circuits, and one registered after-handler middleware. -/
def app1b : App :=
  { routes := [("GET", [vCatchAll])], before_route_m := [],
    before_m := [mwShort], after_m := [okHook2], debug := false }

/-- C1, counterexample. With a before-route middleware returning a
Response and one registered after-handler middleware, `process_request`
returns the short-circuited response immediately: the after-handler
middleware — which the claim says still executes on the short-circuited
response — never runs (its event is absent from the trace). -/
theorem c1_counterexample :
    (process_request fmt0 app1 env1).2 = rSC ∧
    app1.after_m.length = 1 ∧
    Event.afterHandlerM 0 ∉ (process_request fmt0 app1 env1).1 :=
  ⟨rfl, rfl, by decide⟩

/-- C1, amended. A before-route or before-handler middleware returning a
Response short-circuits the pipeline: subsequent middleware of that phase,
routing (for the before-route phase) and the view lifecycle never execute,
and the response is returned immediately — the after-handler middleware
phase is also skipped (it runs only on the view stage's normal
fall-through path). The traces contain exactly the events up to and
including the short-circuiting hook. -/
theorem c1_short_circuit_amended :
    (∀ (fmt : Exc → String) (app : App) (env : Env)
        (pre : List (Request → Except Exc HookOut))
        (m : Request → Except Exc HookOut)
        (post : List (Request → Except Exc HookOut)) (r : Response),
      app.before_route_m = pre ++ m :: post →
      (∀ f ∈ pre, f (Request.make env) = Except.ok HookOut.val) →
      m (Request.make env) = Except.ok (HookOut.resp r) →
      process_request fmt app env =
        ((List.range' 0 (pre.length + 1)).map Event.beforeRouteM, r)) ∧
    (∀ (fmt : Exc → String) (app : App) (env : Env) (v : View)
        (params : List (String × String))
        (pre : List (Request → Except Exc HookOut))
        (m : Request → Except Exc HookOut)
        (post : List (Request → Except Exc HookOut)) (r : Response),
      (∀ f ∈ app.before_route_m, f (Request.make env) = Except.ok HookOut.val) →
      matchRoute app (Request.make env).path (Request.make env).method =
        Except.ok (v, params) →
      app.before_m = pre ++ m :: post →
      (∀ f ∈ pre, f { Request.make env with params := params } =
        Except.ok HookOut.val) →
      m { Request.make env with params := params } =
        Except.ok (HookOut.resp r) →
      process_request fmt app env =
        ((List.range' 0 app.before_route_m.length).map Event.beforeRouteM ++
          [Event.routeMatch] ++
          (List.range' 0 (pre.length + 1)).map Event.beforeHandlerM, r)) := by
  constructor
  · intro fmt app env pre m post r hl hpre hm
    have hrp := runPhase_short pre m post (Request.make env)
      Event.beforeRouteM r hpre hm 0
    simp only [process_request, dispatch, hl, hrp]
  · intro fmt app env v params pre m post r h1 h2 h3 h4 h5
    have hbr := runPhase_all app.before_route_m (Request.make env)
      Event.beforeRouteM h1 0
    have hbh := runPhase_short pre m post
      { Request.make env with params := params } Event.beforeHandlerM r h4 h5 0
    simp only [process_request, dispatch, dispatchFromRoute, hbr, h2, h3, hbh]

/-- Concrete instances of both parts of `c1_short_circuit_amended`: the
before-route short-circuit of `app1` and the before-handler short-circuit
of `app1b`, each returning the middleware's response with no after-handler
event in the trace. -/
theorem c1_witness :
    process_request fmt0 app1 env1 = ([Event.beforeRouteM 0], rSC) ∧
    process_request fmt0 app1b env1 =
      ([Event.routeMatch, Event.beforeHandlerM 0], rSC) :=
  ⟨c1_short_circuit_amended.1 fmt0 app1 env1 [] mwShort [] rSC rfl
      (by intro f hf; cases hf) rfl,
    c1_short_circuit_amended.2 fmt0 app1b env1 vCatchAll [] [] mwShort [] rSC
      (by intro f hf; cases hf) rfl rfl (by intro f hf; cases hf) rfl⟩

/-- The response a recovering `on_exception` hook returns. -/
def r200 : Response :=
  { body := PyObj.str "recovered", status := 200, headers := [] }

/-- A view for `/t` whose handler returns a non-Response value (`None`)
and whose `on_exception` hook returns the 200 response `r200`. -/
def vRecover : View :=
  { route := RoutePattern.compiled
      (fun p => if p == "/t" then some [] else Option.none),
    methods := ["GET"],
    before_handler := okHook, handler := okHook, after_handler := okHook2,
    on_exception := fun _ _ => Except.ok (HookOut.resp r200) }

/-- Same view, but with an `on_exception` hook that also fails to return a
Response. -/
def vNoRecover : View :=
  { vRecover with on_exception := fun _ _ => Except.ok HookOut.val }

/-- A GET request environment for `/t`. -/
def env2 : Env :=
  { request_method := some "GET", path_info := some "/t",
    content_length := some "0", content_type := some "",
    wsgi_input := [], max_body_size := Option.none }

/-- An application routing GET `/t` to the recovering view. -/
def app2 : App :=
  { routes := [("GET", [vRecover])], before_route_m := [], before_m := [],
    after_m := [], debug := false }

/-- An application routing GET `/t` to the non-recovering view. -/
def app2c : App :=
  { routes := [("GET", [vNoRecover])], before_route_m := [], before_m := [],
    after_m := [], debug := false }

/-- C2, counterexample. The view's handler returns a non-Response value,
yet `process_request` returns the 200 response produced by that view's
`on_exception` hook — the trace shows `on_exception` running on the
contract error — rather than an unrecoverable internal fault surfacing as
a 500: the contract violation is raised as a `RestiPyException`, the very
class the view-level handler catches. -/
theorem c2_counterexample :
    process_request fmt0 app2 env2 =
      ([Event.routeMatch, Event.viewBefore, Event.viewHandler,
        Event.viewOnException], r200) ∧
    r200.status = 200 ∧ ((200 : Int) ≠ 500) :=
  ⟨rfl, rfl, by decide⟩

/-- C2, amended. A routed view handler returning a non-Response value
raises the contract-violation `RestiPyException` with message
`Route handler must return a Response object.`; the value never passes
through silently, and the view's `after` hook never runs. However, that
exception is application-level: it is routed to the same view's
`on_exception` hook. If `on_exception` returns a Response, that response
is the request's outcome (the violation is recovered); only if
`on_exception` itself fails to return a Response does a second contract
violation escape and surface, in a non-debug configuration, as the
generic 500 internal-fault response. -/
theorem c2_contract_violation_amended (fmt : Exc → String) (app : App)
    (env : Env) (v : View) (params : List (String × String))
    (h1 : ∀ f ∈ app.before_route_m,
      f (Request.make env) = Except.ok HookOut.val)
    (h2 : matchRoute app (Request.make env).path (Request.make env).method =
      Except.ok (v, params))
    (h3 : ∀ f ∈ app.before_m,
      f { Request.make env with params := params } = Except.ok HookOut.val)
    (h4 : v.before_handler { Request.make env with params := params } =
      Except.ok HookOut.val)
    (h5 : v.handler { Request.make env with params := params } =
      Except.ok HookOut.val) :
    (runViewStage v { Request.make env with params := params }).1 =
      [Event.viewBefore, Event.viewHandler, Event.viewOnException] ∧
    (∀ r : Response,
      v.on_exception { Request.make env with params := params }
          "Route handler must return a Response object." =
        Except.ok (HookOut.resp r) →
      process_request fmt app env =
        ((List.range' 0 app.before_route_m.length).map Event.beforeRouteM ++
          [Event.routeMatch] ++
          (List.range' 0 app.before_m.length).map Event.beforeHandlerM ++
          [Event.viewBefore, Event.viewHandler, Event.viewOnException], r)) ∧
    (v.on_exception { Request.make env with params := params }
          "Route handler must return a Response object." =
        Except.ok HookOut.val →
      app.debug = false →
      process_request fmt app env =
        ((List.range' 0 app.before_route_m.length).map Event.beforeRouteM ++
          [Event.routeMatch] ++
          (List.range' 0 app.before_m.length).map Event.beforeHandlerM ++
          [Event.viewBefore, Event.viewHandler, Event.viewOnException],
          { body := PyObj.dict
              [("code", PyObj.str "INTERNAL_SERVER_ERROR"),
               ("error", PyObj.str "Something went wrong, try again later.")],
            status := 500, headers := [] })) := by
  have hbr := runPhase_all app.before_route_m (Request.make env)
    Event.beforeRouteM h1 0
  have hbh := runPhase_all app.before_m
    { Request.make env with params := params } Event.beforeHandlerM h3 0
  refine ⟨?_, ?_, ?_⟩
  · simp only [runViewStage, h4, h5, handleRestiPy]
    cases hoe : v.on_exception { Request.make env with params := params }
        "Route handler must return a Response object." with
    | error e => simp [hoe]
    | ok ho => cases ho <;> simp [hoe]
  · intro r hoe
    have hvs : runViewStage v { Request.make env with params := params } =
        ([Event.viewBefore, Event.viewHandler, Event.viewOnException],
          ViewOutcome.retNow r) := by
      simp only [runViewStage, h4, h5, handleRestiPy, hoe]
    simp only [process_request, dispatch, dispatchFromRoute, dispatchView,
      hbr, h2, hbh, hvs]
  · intro hoe hdbg
    have hvs : runViewStage v { Request.make env with params := params } =
        ([Event.viewBefore, Event.viewHandler, Event.viewOnException],
          ViewOutcome.raised
            (Exc.restipy "Route exception must return Response object.")) := by
      simp only [runViewStage, h4, h5, handleRestiPy, hoe]
    simp only [process_request, dispatch, dispatchFromRoute, dispatchView,
      hbr, h2, hbh, hvs, hdbg]
    simp [List.append_assoc]

/-- Concrete instances of `c2_contract_violation_amended`: with the
recovering view the request ends in the hook's 200 response; with the
non-recovering view it ends in the generic 500 internal-fault response. -/
theorem c2_witness :
    process_request fmt0 app2 env2 =
      ([Event.routeMatch, Event.viewBefore, Event.viewHandler,
        Event.viewOnException], r200) ∧
    process_request fmt0 app2c env2 =
      ([Event.routeMatch, Event.viewBefore, Event.viewHandler,
        Event.viewOnException],
        { body := PyObj.dict
            [("code", PyObj.str "INTERNAL_SERVER_ERROR"),
             ("error", PyObj.str "Something went wrong, try again later.")],
          status := 500, headers := [] }) :=
  ⟨(c2_contract_violation_amended fmt0 app2 env2 vRecover []
      (by intro f hf; cases hf) rfl (by intro f hf; cases hf) rfl rfl).2.1
      r200 rfl,
    (c2_contract_violation_amended fmt0 app2c env2 vNoRecover []
      (by intro f hf; cases hf) rfl (by intro f hf; cases hf) rfl rfl).2.2
      rfl rfl⟩

/-- A GET request environment for an unregistered path. -/
def env6 : Env :=
  { request_method := some "GET", path_info := some "/nope",
    content_length := some "0", content_type := some "",
    wsgi_input := [], max_body_size := Option.none }

/-- Concrete instance of `c6_route_not_found`: on the empty application a
GET for `/nope` yields the 404 `ROUTE_NOT_FOUND` response, with only the
route lookup in the trace. -/
theorem c6_witness :
    process_request fmt0 app0 env6 =
      ([Event.routeMatch],
        { body := PyObj.dict
            [("code", PyObj.str "ROUTE_NOT_FOUND"),
             ("error", PyObj.str "Route not found.")],
          status := 404, headers := [] }) :=
  (c6_route_not_found fmt0 app0 env6 (by intro f hf; cases hf)
    (by intro m hm; rfl)).2.1

/-- C4. HEAD routing and HEAD body suppression: the route lookup for a
HEAD request first exhausts the HEAD-specific route list — a HEAD-list
match wins outright, and the GET list is consulted exactly when the HEAD
list yields no match — so a HEAD request matches a GET-only route
precisely when no HEAD-specific route matches; and the WSGI adapter emits
no body chunks at all for a HEAD request, whatever the handler produced,
while still emitting the response's status line and headers. -/
theorem c4_head_fallback_and_empty_body :
    (∀ (app : App) (path : String) (v : View)
        (g : List (String × String)),
      firstMatch (lookupRoutes app.routes "HEAD") path = Except.ok Option.none →
      firstMatch (lookupRoutes app.routes "GET") path = Except.ok (some (v, g)) →
      matchRoute app path "HEAD" = Except.ok (v, g)) ∧
    (∀ (app : App) (path : String) (v : View)
        (g : List (String × String)),
      firstMatch (lookupRoutes app.routes "HEAD") path = Except.ok (some (v, g)) →
      matchRoute app path "HEAD" = Except.ok (v, g)) ∧
    (∀ (fmt : Exc → String) (serialize : PyObj → List Nat)
        (statusLine : Int → String) (app : App) (env : Env),
      pyUpper (env.request_method.getD "GET") = "HEAD" →
      wsgi fmt serialize statusLine app env =
        ([], statusLine (process_request fmt app env).2.status,
          (process_request fmt app env).2.headers)) := by
  refine ⟨?_, ?_, ?_⟩
  · intro app path v g hHEAD hGET
    unfold matchRoute searchMethodsFor
    simp only [matchMethods, hHEAD, hGET]
  · intro app path v g hHEAD
    unfold matchRoute searchMethodsFor
    simp only [matchMethods, hHEAD]
  · intro fmt serialize statusLine app env hm
    simp only [wsgi, hm, Response.get_response]
    rfl

/-- A HEAD request environment for `/users/42`. -/
def envHead : Env :=
  { request_method := some "HEAD", path_info := some "/users/42",
    content_length := some "0", content_type := some "",
    wsgi_input := [], max_body_size := Option.none }

/-- A serializer that would emit bytes for every body. -/
def ser0 : PyObj → List Nat := fun _ => [1, 2, 3]

/-- A status-line table stub. -/
def sl0 : Int → String := fun _ => "status-line"

/-- Concrete instances of `c4_head_fallback_and_empty_body`: on `appW5`
(GET-only routes) a HEAD lookup for `/users/42` falls back to the GET
list and resolves to `vUsers`, and the emitted WSGI body is empty even
though the serializer emits bytes for every response body. -/
theorem c4_witness :
    matchRoute appW5 "/users/42" "HEAD" =
      Except.ok (vUsers, [("id", "42")]) ∧
    wsgi fmt0 ser0 sl0 appW5 envHead =
      ([], sl0 (process_request fmt0 appW5 envHead).2.status,
        (process_request fmt0 appW5 envHead).2.headers) :=
  ⟨c4_head_fallback_and_empty_body.1 appW5 "/users/42" vUsers [("id", "42")]
      rfl rfl,
    c4_head_fallback_and_empty_body.2.2 fmt0 ser0 sl0 appW5 envHead rfl⟩

/-- C8. When an unclassified (non-HTTPException) exception unwinds out of
the pipeline, `process_request` returns a 500 response whose body is
gated by the debug flag: in a non-debug configuration, exactly the code
`INTERNAL_SERVER_ERROR` with the generic message and no trace field; in a
debug configuration, the exception's own message together with the
non-empty `stacktrace` line list obtained by splitting the formatted
traceback. -/
theorem c8_internal_error_bodies (fmt : Exc → String) (app : App)
    (env : Env) (tr : List Event) (e : Exc)
    (h1 : dispatch app env = (tr, Except.error e))
    (h2 : e.isHTTP = false)
    (h3 : pySplitlines (fmt e) ≠ []) :
    (app.debug = false →
      process_request fmt app env =
        (tr,
          { body := PyObj.dict
              [("code", PyObj.str "INTERNAL_SERVER_ERROR"),
               ("error", PyObj.str "Something went wrong, try again later.")],
            status := 500, headers := [] })) ∧
    (app.debug = true →
      process_request fmt app env =
        (tr,
          { body := PyObj.dict
              [("code", PyObj.str "INTERNAL_SERVER_ERROR"),
               ("error", PyObj.str e.message),
               ("stacktrace",
                 PyObj.list ((pySplitlines (fmt e)).map PyObj.str))],
            status := 500, headers := [] }) ∧
      (pySplitlines (fmt e)).map PyObj.str ≠ []) := by
  cases e with
  | http he => simp [Exc.isHTTP] at h2
  | restipy m =>
    constructor
    · intro hdbg
      simp only [process_request, h1, hdbg]
      rfl
    · intro hdbg
      refine ⟨?_, ?_⟩
      · simp only [process_request, h1, hdbg]
        rfl
      · simp only [ne_eq, List.map_eq_nil_iff]
        exact h3
  | generic m =>
    constructor
    · intro hdbg
      simp only [process_request, h1, hdbg]
      rfl
    · intro hdbg
      refine ⟨?_, ?_⟩
      · simp only [process_request, h1, hdbg]
        rfl
      · simp only [ne_eq, List.map_eq_nil_iff]
        exact h3

/-- A before-route middleware that raises a generic exception. -/
def mwRaise : Request → Except Exc HookOut :=
  fun _ => Except.error (Exc.generic "boom")

/-- A non-debug application whose first before-route middleware raises. -/
def app8F : App :=
  { routes := [], before_route_m := [mwRaise], before_m := [],
    after_m := [], debug := false }

/-- The same application in debug configuration. -/
def app8T : App :=
  { app8F with debug := true }

/-- A formatter returning a two-line traceback. -/
def fmtB : Exc → String := fun _ => "line1\nline2"

/-- Concrete instances of `c8_internal_error_bodies`: the raising
middleware yields the generic non-leaking 500 body in non-debug mode and
the message-plus-stacktrace 500 body in debug mode. -/
theorem c8_witness :
    process_request fmtB app8F env1 =
      ([Event.beforeRouteM 0],
        { body := PyObj.dict
            [("code", PyObj.str "INTERNAL_SERVER_ERROR"),
             ("error", PyObj.str "Something went wrong, try again later.")],
          status := 500, headers := [] }) ∧
    process_request fmtB app8T env1 =
      ([Event.beforeRouteM 0],
        { body := PyObj.dict
            [("code", PyObj.str "INTERNAL_SERVER_ERROR"),
             ("error", PyObj.str "boom"),
             ("stacktrace",
               PyObj.list [PyObj.str "line1", PyObj.str "line2"])],
          status := 500, headers := [] }) :=
  ⟨(c8_internal_error_bodies fmtB app8F env1 [Event.beforeRouteM 0]
      (Exc.generic "boom") rfl rfl (by decide)).1 rfl,
    ((c8_internal_error_bodies fmtB app8T env1 [Event.beforeRouteM 0]
      (Exc.generic "boom") rfl rfl (by decide)).2 rfl).1⟩

/-- C9. For a request with Content-Type `application/json`, an empty parse
cache and a non-empty body: when `json.loads(body.decode())` fails, the
`json` accessor raises exactly the transport-level `HTTPException` with
status 400 and code `INVALID_REQUEST_BODY` — the raw parse exception never
propagates; when it succeeds, the accessor returns (and caches) the
decoder's structured value, which by the stdlib `json` contract is the
structured equivalent of the serialized input. -/
theorem c9_json_parse (jsonLoads : String → Except Unit PyObj)
    (decode : List Nat → Except Unit String) (req : Request)
    (body : List Nat) (v : PyObj)
    (h0 : truthy req.form = false)
    (h1 : (pySplit (pyLower req.content_type) ';').headD "" =
      "application/json")
    (h2 : req.read_body = Except.ok body)
    (h3 : body.isEmpty = false) :
    (decodeThen jsonLoads decode body = Except.error () →
      req.json jsonLoads decode =
        Except.error (Exc.http
          { message := "Malformed JSON body.", status_code := 400,
            code := "INVALID_REQUEST_BODY", headers := [] })) ∧
    (decodeThen jsonLoads decode body = Except.ok v →
      req.json jsonLoads decode =
        Except.ok (some v, { req with form := v })) := by
  constructor
  · intro hd
    simp only [Request.json, Request.parse_json_data, h0, h1, h2, h3, hd]
    simp
  · intro hd
    simp only [Request.json, Request.parse_json_data, h0, h1, h2, h3, hd]
    simp

/-- A byte-wise ASCII decoder standing in for `bytes.decode`. -/
def decode0 : List Nat → Except Unit String :=
  fun bs => Except.ok (String.mk (bs.map (fun n => Char.ofNat n)))

/-- A JSON decoder stub accepting exactly the document `[1]`. -/
def jl0 : String → Except Unit PyObj :=
  fun s => if s == "[1]" then Except.ok (PyObj.list [PyObj.int 1])
    else Except.error ()

/-- A JSON POST environment whose two-byte body `xx` is malformed JSON. -/
def env9a : Env :=
  { request_method := some "POST", path_info := some "/",
    content_length := some "2", content_type := some "application/json",
    wsgi_input := [120, 120], max_body_size := some 100 }

/-- A JSON POST environment whose three-byte body is the document `[1]`. -/
def env9b : Env :=
  { request_method := some "POST", path_info := some "/",
    content_length := some "3", content_type := some "application/json",
    wsgi_input := [91, 49, 93], max_body_size := some 100 }

/-- Concrete instances of `c9_json_parse`: the malformed body yields the
400 `INVALID_REQUEST_BODY` transport error, the well-formed body yields
the parsed structure. -/
theorem c9_witness :
    (Request.make env9a).json jl0 decode0 =
      Except.error (Exc.http
        { message := "Malformed JSON body.", status_code := 400,
          code := "INVALID_REQUEST_BODY", headers := [] }) ∧
    (Request.make env9b).json jl0 decode0 =
      Except.ok (some (PyObj.list [PyObj.int 1]),
        { Request.make env9b with form := PyObj.list [PyObj.int 1] }) :=
  ⟨(c9_json_parse jl0 decode0 (Request.make env9a) [120, 120]
      (PyObj.list [PyObj.int 1]) rfl rfl rfl rfl).1 rfl,
    (c9_json_parse jl0 decode0 (Request.make env9b) [91, 49, 93]
      (PyObj.list [PyObj.int 1]) rfl rfl rfl rfl).2 rfl⟩

/-- C10. All three body parsers memoize into the single shared `_form`
cache and return it, unchanged and without touching the body or the
Content-Type, whenever it is truthy; consequently whichever accessor
first stores a truthy value fixes every later `json`/`form` read — in
particular, once the url-encoded form parser has produced a (necessarily
truthy) result, the `json` parser returns that same form dictionary even
though the content type is not `application/json`. -/
theorem c10_form_cache_shared (jsonLoads : String → Except Unit PyObj)
    (decode : List Nat → Except Unit String)
    (parseQsl : String → List (String × String))
    (getMsg : String → List Nat → Option (List Part)) (req : Request) :
    (truthy req.form = true →
      req.parse_json_data jsonLoads decode = Except.ok (some req.form, req) ∧
      req.parse_url_encoded_form parseQsl decode =
        Except.ok (some req.form, req) ∧
      req.parse_multipart_form getMsg = Except.ok (some req.form, req)) ∧
    (∀ (req' : Request) (v : PyObj),
      Request.parse_url_encoded_form parseQsl decode req =
        Except.ok (some v, req') →
      Request.parse_json_data jsonLoads decode req' =
        Except.ok (some v, req')) := by
  constructor
  · intro hT
    refine ⟨?_, ?_, ?_⟩
    · simp [Request.parse_json_data, hT]
    · simp [Request.parse_url_encoded_form, hT]
    · simp [Request.parse_multipart_form, hT]
  · intro req' v h
    by_cases hf : truthy req.form = true
    · simp only [Request.parse_url_encoded_form, hf, if_true] at h
      obtain ⟨hv, hreq⟩ := by
        simpa using h
      subst hv
      subst hreq
      simp [Request.parse_json_data, hf]
    · unfold Request.parse_url_encoded_form at h
      rw [if_neg hf] at h
      cases hrb : req.read_body with
      | error e => simp only [hrb] at h; simp at h
      | ok body =>
        simp only [hrb] at h
        cases hdec : decode body with
        | error e => simp only [hdec] at h; simp at h
        | ok s =>
          simp only [hdec] at h
          by_cases hfm : truthy (pyDictOfPairs (parseQsl s)) = true
          · rw [if_pos hfm] at h
            obtain ⟨hv, hreq⟩ := by
              simpa using h
            subst hv
            rw [← hreq]
            simp [Request.parse_json_data, hfm]
          · rw [if_neg hfm] at h
            simp at h

/-- A request whose `_form` cache already holds a truthy dictionary. -/
def reqC : Request :=
  { env := env1, params := [], form := PyObj.dict [("cached", PyObj.int 1)] }

/-- A `parse_qsl` stub returning one form pair. -/
def pq0 : String → List (String × String) := fun _ => [("a", "1")]

/-- A multipart-message parser stub reporting a non-multipart message. -/
def gm0 : String → List Nat → Option (List Part) := fun _ _ => Option.none

/-- A url-encoded POST environment with body `a=1`. -/
def env10 : Env :=
  { request_method := some "POST", path_info := some "/",
    content_length := some "3",
    content_type := some "application/x-www-form-urlencoded",
    wsgi_input := [97, 61, 49], max_body_size := some 100 }

/-- Concrete instances of `c10_form_cache_shared`: on a request with a
populated cache all three parsers return the cached value, and after a
fresh url-encoded form read the `json` accessor returns the url-encoded
dictionary although the content type is url-encoded, not JSON. -/
theorem c10_witness :
    reqC.parse_json_data jl0 decode0 = Except.ok (some reqC.form, reqC) ∧
    reqC.parse_url_encoded_form pq0 decode0 =
      Except.ok (some reqC.form, reqC) ∧
    reqC.parse_multipart_form gm0 = Except.ok (some reqC.form, reqC) ∧
    Request.parse_json_data jl0 decode0
        { Request.make env10 with form := PyObj.dict [("a", PyObj.str "1")] } =
      Except.ok (some (PyObj.dict [("a", PyObj.str "1")]),
        { Request.make env10 with form := PyObj.dict [("a", PyObj.str "1")] }) :=
  ⟨((c10_form_cache_shared jl0 decode0 pq0 gm0 reqC).1 rfl).1,
    ((c10_form_cache_shared jl0 decode0 pq0 gm0 reqC).1 rfl).2.1,
    ((c10_form_cache_shared jl0 decode0 pq0 gm0 reqC).1 rfl).2.2,
    (c10_form_cache_shared jl0 decode0 pq0 gm0 (Request.make env10)).2
      { Request.make env10 with form := PyObj.dict [("a", PyObj.str "1")] }
      (PyObj.dict [("a", PyObj.str "1")]) rfl⟩

end Restipy
